import Mathlib

/-!
Verification of the sentiment-scoring core of `btc-sentinel-aws`
(`src/sentiment_utils.py`, class `CryptoSentimentAnalyzer`).

Shallow embedding conventions:
* Python `str` values are modelled as `List Char` (one `Char` per Unicode code
  point, matching Python's notion of string length and indexing).
* A value that may be Python `None` (or another non-string) is modelled as
  `Option (List Char)`, with `none` standing for `None`; `len(None)` raises
  `TypeError`, modelled as `Except.error ()`.
* Python floats are modelled as exact rationals `ℚ`; `round(x, 4)` is modelled
  as ideal round-half-to-even on the exact value, scaled by `10 ^ 4`.
* The TextBlob dependency is external to the repository; following the spec it
  is an injected engine `cleanedText → (polarity, subjectivity)` that may also
  fail (its failure models an exception escaping `TextBlob(...)`, which the
  source catches).
* `str.lower`, `\w`, `\s` and `str.strip` are modelled on their ASCII behaviour
  (all inputs relevant to the claims are ASCII text plus emoji, which these
  operations leave unchanged).
* Python's `sorted(..., key=len, reverse=True)` is a stable descending sort;
  it is modelled by a stable insertion sort, which computes the same list (the
  stable sorted permutation is unique).
* Recursive string scanners take an explicit fuel argument (initialised to the
  string length, an upper bound on the number of scanning steps) so that they
  are structurally recursive and evaluate inside the kernel.
-/

namespace BtcSentinel

set_option maxRecDepth 1000000
set_option maxHeartbeats 4000000

-- The core `Rat` operations are `@[irreducible]` in the ambient library,
-- which blocks concrete evaluation by `decide`; restore the default
-- reducibility locally so that ground rational arithmetic evaluates.
attribute [local semireducible] Rat.add Rat.mul Rat.sub Rat.inv Rat.ofScientific

/-- A Python string: one entry per Unicode code point. -/
abbrev Str := List Char

/-- Python `abs` on a float, on the exact rational model. -/
def pyAbs (q : ℚ) : ℚ := if q < 0 then -q else q

/-- Round-half-to-even to an integer (the rounding mode of Python `round`). -/
def roundHalfEven (q : ℚ) : ℤ :=
  let n := Rat.floor q
  let frac := q - (n : ℚ)
  if frac < 1/2 then n
  else if 1/2 < frac then n + 1
  else if n % 2 = 0 then n else n + 1

/-- Python `round(x, 4)` on the exact rational model. -/
def pyRound4 (q : ℚ) : ℚ := (roundHalfEven (q * 10000) : ℚ) / 10000

/-- Fuel-driven helper for `countOccs`. -/
def countOccsAux (pat : Str) : ℕ → Str → ℕ
  | 0, _ => 0
  | _, [] => 0
  | fuel+1, c :: cs =>
    if !pat.isEmpty && pat.isPrefixOf (c :: cs) then
      1 + countOccsAux pat fuel ((c :: cs).drop pat.length)
    else countOccsAux pat fuel cs

/-- Python `s.count(pat)`: number of non-overlapping occurrences of `pat`
in `s`, scanning left to right (for non-empty `pat`). -/
def countOccs (pat s : Str) : ℕ := countOccsAux pat s.length s

/-- Fuel-driven helper for `replaceAll`. -/
def replaceAllAux (pat repl : Str) : ℕ → Str → Str
  | 0, s => s
  | _, [] => []
  | fuel+1, c :: cs =>
    if !pat.isEmpty && pat.isPrefixOf (c :: cs) then
      repl ++ replaceAllAux pat repl fuel ((c :: cs).drop pat.length)
    else c :: replaceAllAux pat repl fuel cs

/-- Python `s.replace(pat, repl)`: replace all non-overlapping occurrences,
scanning left to right (for non-empty `pat`). -/
def replaceAll (pat repl s : Str) : Str := replaceAllAux pat repl s.length s

/-- Python `pat in s`: substring containment. -/
def containsSub (pat s : Str) : Bool := s.tails.any (fun t => pat.isPrefixOf t)

/-- Python `str.lower` (ASCII model). -/
def pyLower (s : Str) : Str := s.map Char.toLower

/-- Python whitespace for `\s` / `str.strip` (ASCII part). -/
def pySpace (c : Char) : Bool :=
  c == ' ' || c == '\t' || c == '\n' || c == '\r' || c == '\x0b' || c == '\x0c'

/-- Python `str.strip()`. -/
def pyStrip (s : Str) : Str :=
  ((s.dropWhile pySpace).reverse.dropWhile pySpace).reverse

/-- Fuel-driven helper for `collapseWs`. -/
def collapseWsAux : ℕ → Str → Str
  | 0, s => s
  | _, [] => []
  | fuel+1, c :: cs =>
    if pySpace c then ' ' :: collapseWsAux fuel (cs.dropWhile pySpace)
    else c :: collapseWsAux fuel cs

/-- Python `re.sub(r'\s+', ' ', s)`: each maximal whitespace run becomes one
space. -/
def collapseWs (s : Str) : Str := collapseWsAux s.length s

/-- Python `\w` (ASCII model): letters, digits, underscore. -/
def wordChar (c : Char) : Bool := c.isAlphanum || c == '_'

/-- Whether the string starts with a `\w` character. -/
def startsWithWord : Str → Bool
  | [] => false
  | c :: _ => wordChar c

/-- Fuel-driven helper for `removeMentions`. -/
def removeMentionsAux : ℕ → Str → Str
  | 0, s => s
  | _, [] => []
  | fuel+1, c :: cs =>
    if c == '@' && startsWithWord cs then
      removeMentionsAux fuel (cs.dropWhile wordChar)
    else c :: removeMentionsAux fuel cs

/-- Python `re.sub(r'@\w+', '', s)` (the source's `mention_pattern`). -/
def removeMentions (s : Str) : Str := removeMentionsAux s.length s

/-- A character matched by the body class of the source's `url_pattern`
regex `[a-zA-Z]|[0-9]|[$-_@.&+]|[!*\\(\\),]|%hh` (each `%hh` character is
already inside the range `$`–`_`, so the union of the alternatives is this
character predicate). -/
def urlAllowed (c : Char) : Bool :=
  (('a' ≤ c && c ≤ 'z') || ('A' ≤ c && c ≤ 'Z')) ||
  ('0' ≤ c && c ≤ '9') ||
  ('$' ≤ c && c ≤ '_') ||
  (c == '!')

/-- Whether the string starts with a `urlAllowed` character. -/
def startsWithUrlChar : Str → Bool
  | [] => false
  | c :: _ => urlAllowed c

/-- Fuel-driven helper for `removeUrls`. -/
def removeUrlsAux : ℕ → Str → Str
  | 0, s => s
  | _, [] => []
  | fuel+1, c :: cs =>
    if "https://".data.isPrefixOf (c :: cs) && startsWithUrlChar ((c :: cs).drop 8) then
      removeUrlsAux fuel (((c :: cs).drop 8).dropWhile urlAllowed)
    else if "http://".data.isPrefixOf (c :: cs) && startsWithUrlChar ((c :: cs).drop 7) then
      removeUrlsAux fuel (((c :: cs).drop 7).dropWhile urlAllowed)
    else c :: removeUrlsAux fuel cs

/-- Python `url_pattern.sub('', s)`: delete every match of
`http[s]?://(<urlAllowed>)+`, scanning left to right, each match consuming
the scheme and the maximal following run of allowed characters. -/
def removeUrls (s : Str) : Str := removeUrlsAux s.length s

/-- Termos altamente positivos (bullish), from `_init_crypto_dictionaries`. -/
def crypto_positive_high : List (String × ℚ) :=
  [("moon", 0.9), ("mooning", 0.9), ("lambo", 0.9), ("rocket", 0.8),
   ("ath", 0.8), ("all-time high", 0.8), ("diamond hands", 0.7),
   ("hodl", 0.6), ("hold", 0.4), ("pump", 0.6), ("surge", 0.7),
   ("rally", 0.7), ("bull run", 0.8), ("bullish", 0.7), ("breakout", 0.7),
   ("green candle", 0.6), ("green", 0.3), ("profit", 0.6), ("gains", 0.7),
   ("buy the dip", 0.5), ("accumulate", 0.4), ("strong hands", 0.6)]

/-- Termos moderadamente positivos. -/
def crypto_positive_moderate : List (String × ℚ) :=
  [("adoption", 0.4), ("institutional", 0.3), ("mainstream", 0.4),
   ("partnership", 0.5), ("integration", 0.4), ("upgrade", 0.5),
   ("bullish signal", 0.6), ("golden cross", 0.6), ("support level", 0.3),
   ("resistance break", 0.5), ("volume spike", 0.4), ("whale accumulation", 0.5)]

/-- Termos altamente negativos (bearish). -/
def crypto_negative_high : List (String × ℚ) :=
  [("rekt", -0.9), ("liquidation", -0.9), ("liquidated", -0.9),
   ("rug pull", -0.9), ("rugpull", -0.9), ("scam", -0.9), ("ponzi", -0.9),
   ("crash", -0.8), ("dump", -0.7), ("dumping", -0.7), ("bear market", -0.7),
   ("bearish", -0.7), ("panic sell", -0.8), ("panic selling", -0.8),
   ("death cross", -0.7), ("red candle", -0.6), ("red", -0.3),
   ("loss", -0.6), ("losses", -0.6), ("bleeding", -0.7), ("brutal", -0.8)]

/-- Termos moderadamente negativos. -/
def crypto_negative_moderate : List (String × ℚ) :=
  [("correction", -0.3), ("dip", -0.2), ("pullback", -0.2), ("decline", -0.4),
   ("sell", -0.3), ("selling pressure", -0.5), ("resistance", -0.2),
   ("overhead resistance", -0.3), ("weak hands", -0.4), ("fud", -0.6),
   ("fear", -0.5), ("uncertainty", -0.3), ("doubt", -0.4), ("volatile", -0.2),
   ("manipulation", -0.6), ("whale dump", -0.7), ("paper hands", -0.5)]

/-- Termos neutros/informativos. -/
def crypto_neutral : List (String × ℚ) :=
  [("blockchain", 0.0), ("mining", 0.0), ("hash", 0.0), ("wallet", 0.0),
   ("exchange", 0.0), ("transaction", 0.0), ("block", 0.0), ("node", 0.0),
   ("protocol", 0.0), ("fork", 0.0), ("halving", 0.0), ("difficulty", 0.0),
   ("market cap", 0.0), ("volume", 0.0), ("liquidity", 0.0), ("trading", 0.0),
   ("analysis", 0.0), ("chart", 0.0), ("technical", 0.0), ("fundamental", 0.0)]

/-- `self.crypto_terms`: the five dictionaries merged by `dict.update`.
The keys are pairwise distinct (proved with claim C6 below), so the merged
dict is the concatenation in insertion order. -/
def crypto_terms : List (String × ℚ) :=
  crypto_positive_high ++ crypto_positive_moderate ++ crypto_negative_high ++
  crypto_negative_moderate ++ crypto_neutral

/-- The lexicon with terms as character lists. -/
def crypto_terms_chars : List (Str × ℚ) :=
  crypto_terms.map (fun p => (p.1.data, p.2))

/-- Stable descending insertion of one term into a sorted list: placed before
the first entry whose term is no longer (so equal lengths keep input order). -/
def insertLenDesc (x : Str × ℚ) : List (Str × ℚ) → List (Str × ℚ)
  | [] => [x]
  | y :: ys =>
    if Nat.ble y.1.length x.1.length then x :: y :: ys
    else y :: insertLenDesc x ys

/-- Stable sort by descending term length, the semantics of the source's
`sorted(self.crypto_terms.items(), key=lambda x: len(x[0]), reverse=True)`. -/
def sortByLenDesc : List (Str × ℚ) → List (Str × ℚ)
  | [] => []
  | x :: xs => insertLenDesc x (sortByLenDesc xs)

/-- `sorted_terms` of `analyze_crypto_terms`. -/
def sorted_terms : List (Str × ℚ) := sortByLenDesc crypto_terms_chars

/-- `self.positive_emojis`. -/
def positive_emojis : List String :=
  ["🚀", "🌙", "💎", "🔥", "📈", "💚", "✅", "🎉", "💪", "🔝"]

/-- `self.negative_emojis`. -/
def negative_emojis : List String :=
  ["📉", "💔", "😭", "😰", "🔴", "❌", "💸", "⬇️", "😱", "🩸"]

/-- `preprocess_text`: emoji score from the original text, then lower-case,
URL removal, mention removal, whitespace collapse and strip. Empty or
non-string input yields `("", 0.0)`. -/
def preprocess_text : Option Str → Str × ℚ
  | none => ([], 0)
  | some text =>
    if text.isEmpty then ([], 0)
    else
      let emoji_score : ℚ :=
        positive_emojis.foldl (fun acc emoji => acc + (countOccs emoji.data text : ℚ) * 0.3) 0
      let emoji_score : ℚ :=
        negative_emojis.foldl (fun acc emoji => acc - (countOccs emoji.data text : ℚ) * 0.3) emoji_score
      let cleaned := pyLower text
      let cleaned := removeUrls cleaned
      let cleaned := removeMentions cleaned
      let cleaned := collapseWs cleaned
      let cleaned := pyStrip cleaned
      (cleaned, emoji_score)

/-- Result of `analyze_crypto_terms`. -/
structure CryptoAnalysis where
  crypto_score : ℚ
  -- the Python dict key is named `matches`, a reserved word in Lean
  matches_found : List (Str × ℚ)
  match_count : ℕ
deriving DecidableEq

/-- `analyze_crypto_terms`: iterate the lexicon sorted by descending term
length; each term contained in the working copy of the text adds its weight,
is appended to `matches`, and has all its occurrences replaced by a space
in the working copy. -/
def analyze_crypto_terms (text : Str) : CryptoAnalysis :=
  let text_lower := pyLower text
  let r := sorted_terms.foldl
    (fun (acc : ℚ × List (Str × ℚ) × Str) tw =>
      if containsSub tw.1 acc.2.2 then
        (acc.1 + tw.2, acc.2.1 ++ [tw], replaceAll tw.1 [' '] acc.2.2)
      else acc)
    (0, [], text_lower)
  { crypto_score := r.1, matches_found := r.2.1, match_count := r.2.1.length }

/-- `calculate_confidence`: point accumulation banded into
`'Alta'`/`'Média'`/`'Baixa'` (High/Medium/Low). -/
def calculate_confidence (crypto_matches : ℕ) (textblob_polarity emoji_score : ℚ) : String :=
  let confidence_score : ℕ := 0
  let confidence_score := confidence_score +
    (if 3 ≤ crypto_matches then 3 else if 2 ≤ crypto_matches then 2
     else if 1 ≤ crypto_matches then 1 else 0)
  let confidence_score := confidence_score +
    (if 0.5 < pyAbs textblob_polarity then 2
     else if 0.2 < pyAbs textblob_polarity then 1 else 0)
  let confidence_score := confidence_score +
    (if 0.3 < pyAbs emoji_score then 1 else 0)
  if 4 ≤ confidence_score then "Alta"
  else if 2 ≤ confidence_score then "Média"
  else "Baixa"

/-- Record returned by `analyze_enhanced_sentiment`. -/
structure SentimentResult where
  polarity : ℚ
  subjectivity : ℚ
  sentiment_label : String
  confidence : String
  textblob_polarity : ℚ
  crypto_score : ℚ
  emoji_score : ℚ
  crypto_matches : ℕ
  crypto_terms_found : List Str
  analysis_method : String
deriving DecidableEq

/-- `_get_neutral_result`: the fallback record for error and invalid-input
cases. -/
def _get_neutral_result : SentimentResult :=
  { polarity := 0.0, subjectivity := 0.0, sentiment_label := "Neutro",
    confidence := "Baixa", textblob_polarity := 0.0, crypto_score := 0.0,
    emoji_score := 0.0, crypto_matches := 0, crypto_terms_found := [],
    analysis_method := "error_fallback" }

/-- The injected generic-polarity engine (TextBlob): cleaned text to
`(polarity, subjectivity)`, possibly failing. -/
abbrev TextBlobEngine := Str → Except Unit (ℚ × ℚ)

/-- Steps 3–6 of `analyze_enhanced_sentiment` (the body of its `try` block
after TextBlob succeeded), taking the preprocessing result
`(cleaned_text, emoji_score)` and the TextBlob pair
`(textblob_polarity, subjectivity)`. -/
def finishAnalysis (pre : Str × ℚ) (ps : ℚ × ℚ) : SentimentResult :=
  let emoji_score := pre.2
  let textblob_polarity := ps.1
  let subjectivity := ps.2
  let crypto_analysis := analyze_crypto_terms pre.1
  let weight_crypto : ℚ := if 0 < crypto_analysis.match_count then 0.6 else 0.0
  let weight_textblob : ℚ := if 0 < crypto_analysis.match_count then 0.3 else 0.8
  let weight_emoji : ℚ := if 0 < crypto_analysis.match_count then 0.1 else 0.2
  let final_polarity :=
    crypto_analysis.crypto_score * weight_crypto +
    textblob_polarity * weight_textblob +
    emoji_score * weight_emoji
  let sentiment_label :=
    if final_polarity > 0.1 then "Positivo"
    else if final_polarity < -0.1 then "Negativo"
    else "Neutro"
  let confidence :=
    calculate_confidence crypto_analysis.match_count textblob_polarity emoji_score
  { polarity := pyRound4 final_polarity,
    subjectivity := pyRound4 subjectivity,
    sentiment_label := sentiment_label,
    confidence := confidence,
    textblob_polarity := pyRound4 textblob_polarity,
    crypto_score := pyRound4 crypto_analysis.crypto_score,
    emoji_score := pyRound4 emoji_score,
    crypto_matches := crypto_analysis.match_count,
    crypto_terms_found := crypto_analysis.matches_found.map Prod.fst,
    analysis_method :=
      if 0 < crypto_analysis.match_count then "enhanced_crypto" else "textblob_standard" }

/-- `analyze_enhanced_sentiment`: empty or non-string input yields the
neutral fallback; a failure of the TextBlob engine is caught and also yields
the neutral fallback; otherwise the full record. -/
def analyze_enhanced_sentiment (tb : TextBlobEngine) (text : Option Str) : SentimentResult :=
  match text with
  | none => _get_neutral_result
  | some s =>
    if s.isEmpty then _get_neutral_result
    else
      match tb (preprocess_text (some s)).1 with
      | .error _ => _get_neutral_result
      | .ok ps => finishAnalysis (preprocess_text (some s)) ps

/-- One entry of the list returned by `analyze_batch_sentiment`: the
per-text analysis dict extended with `text_index` and `original_text`. -/
structure BatchRecord where
  result : SentimentResult
  text_index : ℕ
  original_text : Str
deriving DecidableEq

/-- `text[:100] + "..." if len(text) > 100 else text` of the batch loop;
`len(None)` raises `TypeError`, modelled by `Except.error`. -/
def original_text_of : Option Str → Except Unit Str
  | none => .error ()
  | some t => .ok (if 100 < t.length then t.take 100 ++ "...".data else t)

/-- The batch loop of `analyze_batch_sentiment` with the running index. -/
def batchGo (tb : TextBlobEngine) : ℕ → List (Option Str) → Except Unit (List BatchRecord)
  | _, [] => .ok []
  | i, text :: rest =>
    let analysis := analyze_enhanced_sentiment tb text
    match original_text_of text with
    | .error e => .error e
    | .ok orig =>
      match batchGo tb (i+1) rest with
      | .error e => .error e
      | .ok tail => .ok ({ result := analysis, text_index := i, original_text := orig } :: tail)

/-- `analyze_batch_sentiment`. The trailing statistics block of the source
only logs (its divisions are guarded by the nonempty checks) and does not
affect the returned list, so it is not modelled. -/
def analyze_batch_sentiment (tb : TextBlobEngine) (texts : List (Option Str)) :
    Except Unit (List BatchRecord) :=
  if texts.isEmpty then .ok [] else batchGo tb 0 texts

/-- Modelled from the spec (section 4.4, claim C4): the confidence point
total, `+3/+2/+1` for match count bands, `+2/+1` for generic-polarity
magnitude bands, `+1` for emoji magnitude. -/
def specConfidencePoints (match_count : ℕ) (generic_polarity emoji_score : ℚ) : ℕ :=
  (if 3 ≤ match_count then 3 else if 2 ≤ match_count then 2
   else if 1 ≤ match_count then 1 else 0) +
  (if |generic_polarity| > 0.5 then 2 else if |generic_polarity| > 0.2 then 1 else 0) +
  (if |emoji_score| > 0.3 then 1 else 0)

/-- Modelled from the spec (section 4.4, claim C4): banding of the point
total; `"Alta"`/`"Média"`/`"Baixa"` are the source's spellings of
High/Medium/Low. -/
def specConfidenceBand (total : ℕ) : String :=
  if 4 ≤ total then "Alta" else if 2 ≤ total then "Média" else "Baixa"

/-- A TextBlob engine returning polarity 0 and subjectivity 0. -/
def tbZero : TextBlobEngine := fun _ => .ok (0, 0)

/-- A TextBlob engine that always fails. -/
def tbErr : TextBlobEngine := fun _ => .error ()

/-- A TextBlob engine returning polarity `1/2`. -/
def tbHalf : TextBlobEngine := fun _ => .ok (1/2, 0)

/-- A TextBlob engine returning polarity `10003/80000 = 0.1250375`, so that
with no crypto matches and no emoji the blended polarity is
`0.8 × 0.1250375 = 0.10003`, which rounds to `0.1`. -/
def tbBoundary : TextBlobEngine := fun _ => .ok (10003/80000, 0)

/-- The concrete scenario input of spec section 8 and claim C7. -/
def moonInput : Str := "Bitcoin to the moon! Diamond hands HODL".data

/-! ## Helper lemmas -/

theorem pyAbs_eq_abs (q : ℚ) : pyAbs q = |q| := by
  unfold pyAbs
  split_ifs with h
  · exact (abs_of_neg h).symm
  · exact (abs_of_nonneg (le_of_not_lt h)).symm

theorem analyze_none (tb : TextBlobEngine) :
    analyze_enhanced_sentiment tb none = _get_neutral_result := rfl

theorem analyze_empty (tb : TextBlobEngine) (s : Str) (hs : s.isEmpty = true) :
    analyze_enhanced_sentiment tb (some s) = _get_neutral_result := by
  simp only [analyze_enhanced_sentiment, hs, if_true]

theorem analyze_some_err (tb : TextBlobEngine) (s : Str) (e : Unit)
    (hs : s.isEmpty = false) (htb : tb (preprocess_text (some s)).1 = .error e) :
    analyze_enhanced_sentiment tb (some s) = _get_neutral_result := by
  simp only [analyze_enhanced_sentiment, hs, Bool.false_eq_true, if_false, htb]

theorem analyze_some_ok (tb : TextBlobEngine) (s : Str) (ps : ℚ × ℚ)
    (hs : s.isEmpty = false) (htb : tb (preprocess_text (some s)).1 = .ok ps) :
    analyze_enhanced_sentiment tb (some s) = finishAnalysis (preprocess_text (some s)) ps := by
  simp only [analyze_enhanced_sentiment, hs, Bool.false_eq_true, if_false, htb]

theorem analyze_tb_error (tb : TextBlobEngine) (s : Str) (e : Unit)
    (htb : tb (preprocess_text (some s)).1 = .error e) :
    analyze_enhanced_sentiment tb (some s) = _get_neutral_result := by
  by_cases hs : s.isEmpty
  · exact analyze_empty tb s hs
  · exact analyze_some_err tb s e (Bool.eq_false_iff.mpr hs) htb

theorem finish_method (pre : Str × ℚ) (ps : ℚ × ℚ) :
    (finishAnalysis pre ps).analysis_method =
      (if 0 < (analyze_crypto_terms pre.1).match_count
       then "enhanced_crypto" else "textblob_standard") := by
  dsimp only [finishAnalysis]

theorem finish_matches (pre : Str × ℚ) (ps : ℚ × ℚ) :
    (finishAnalysis pre ps).crypto_matches =
      (analyze_crypto_terms pre.1).match_count := by
  dsimp only [finishAnalysis]

theorem finish_terms (pre : Str × ℚ) (ps : ℚ × ℚ) :
    (finishAnalysis pre ps).crypto_terms_found =
      (analyze_crypto_terms pre.1).matches_found.map Prod.fst := by
  dsimp only [finishAnalysis]

theorem finish_score (pre : Str × ℚ) (ps : ℚ × ℚ) :
    (finishAnalysis pre ps).crypto_score =
      pyRound4 (analyze_crypto_terms pre.1).crypto_score := rfl

theorem finish_confidence (pre : Str × ℚ) (ps : ℚ × ℚ) :
    (finishAnalysis pre ps).confidence =
      calculate_confidence (analyze_crypto_terms pre.1).match_count ps.1 pre.2 := rfl

theorem finish_label_iff (pre : Str × ℚ) (ps : ℚ × ℚ) :
    ∃ q : ℚ,
      (finishAnalysis pre ps).polarity = pyRound4 q ∧
      ((finishAnalysis pre ps).sentiment_label = "Positivo" ↔ 0.1 < q) ∧
      ((finishAnalysis pre ps).sentiment_label = "Negativo" ↔ q < -0.1) ∧
      ((finishAnalysis pre ps).sentiment_label = "Neutro" ↔ (¬ 0.1 < q ∧ ¬ q < -0.1)) := by
  refine ⟨(analyze_crypto_terms pre.1).crypto_score *
      (if 0 < (analyze_crypto_terms pre.1).match_count then (0.6:ℚ) else 0.0) +
      ps.1 * (if 0 < (analyze_crypto_terms pre.1).match_count then (0.3:ℚ) else 0.8) +
      pre.2 * (if 0 < (analyze_crypto_terms pre.1).match_count then (0.1:ℚ) else 0.2),
    rfl, ?_⟩
  have hl : (finishAnalysis pre ps).sentiment_label =
      (if (0.1:ℚ) < (analyze_crypto_terms pre.1).crypto_score *
        (if 0 < (analyze_crypto_terms pre.1).match_count then (0.6:ℚ) else 0.0) +
        ps.1 * (if 0 < (analyze_crypto_terms pre.1).match_count then (0.3:ℚ) else 0.8) +
        pre.2 * (if 0 < (analyze_crypto_terms pre.1).match_count then (0.1:ℚ) else 0.2)
       then "Positivo"
       else if (analyze_crypto_terms pre.1).crypto_score *
        (if 0 < (analyze_crypto_terms pre.1).match_count then (0.6:ℚ) else 0.0) +
        ps.1 * (if 0 < (analyze_crypto_terms pre.1).match_count then (0.3:ℚ) else 0.8) +
        pre.2 * (if 0 < (analyze_crypto_terms pre.1).match_count then (0.1:ℚ) else 0.2) < -0.1
       then "Negativo" else "Neutro") := rfl
  rw [hl]
  generalize (analyze_crypto_terms pre.1).crypto_score *
      (if 0 < (analyze_crypto_terms pre.1).match_count then (0.6:ℚ) else 0.0) +
      ps.1 * (if 0 < (analyze_crypto_terms pre.1).match_count then (0.3:ℚ) else 0.8) +
      pre.2 * (if 0 < (analyze_crypto_terms pre.1).match_count then (0.1:ℚ) else 0.2) = q
  split_ifs with h1 h2
  · refine ⟨by simp [h1], ?_, ?_⟩
    · simp only [show ("Positivo" = "Negativo") = False by simp, false_iff]
      intro hc; linarith
    · simp only [show ("Positivo" = "Neutro") = False by simp, false_iff]
      intro hc; exact hc.1 h1
  · refine ⟨?_, by simp [h2], ?_⟩
    · simp only [show ("Negativo" = "Positivo") = False by simp, false_iff]
      exact h1
    · simp only [show ("Negativo" = "Neutro") = False by simp, false_iff]
      intro hc; exact hc.2 h2
  · refine ⟨?_, ?_, by simp [h1, h2]⟩
    · simp only [show ("Neutro" = "Positivo") = False by simp, false_iff]
      exact h1
    · simp only [show ("Neutro" = "Negativo") = False by simp, false_iff]
      exact h2

theorem batchGo_strings (tb : TextBlobEngine) (texts : List Str) : ∀ n : ℕ,
    batchGo tb n (texts.map Option.some) =
      .ok (texts.mapIdx (fun i t =>
        { result := analyze_enhanced_sentiment tb (some t), text_index := n + i,
          original_text := if 100 < t.length then t.take 100 ++ "...".data else t })) := by
  induction texts with
  | nil => intro n; rfl
  | cons t ts ih =>
    intro n
    simp only [List.map_cons, batchGo, original_text_of, ih (n+1), List.mapIdx_cons]
    refine congrArg Except.ok (congrArg₂ List.cons (by simp) ?_)
    refine congrArg₂ List.mapIdx (funext fun i => funext fun t' => ?_) rfl
    simp [Nat.add_assoc, Nat.add_comm 1 i]

theorem batch_strings_eq (tb : TextBlobEngine) (texts : List Str) :
    analyze_batch_sentiment tb (texts.map Option.some) =
      .ok (texts.mapIdx (fun i t =>
        { result := analyze_enhanced_sentiment tb (some t), text_index := i,
          original_text := if 100 < t.length then t.take 100 ++ "...".data else t })) := by
  cases texts with
  | nil => rfl
  | cons t ts =>
    rw [analyze_batch_sentiment, if_neg (by simp)]
    rw [batchGo_strings tb (t :: ts) 0]
    refine congrArg Except.ok (congrArg₂ List.mapIdx (funext fun i => funext fun t' => ?_) rfl)
    simp

/-! ## Claim theorems -/

/-- C4: for every combination of `match_count`, generic polarity `p` and
emoji score `e`, `calculate_confidence` returns exactly the banding of the
point total `+3/+2/+1/0` (match-count bands) `+2/+1/0` (|p| bands) `+1`
(|e| band), with total `≥ 4 → High ('Alta')`, `≥ 2 → Medium ('Média')`,
else `Low ('Baixa')`. -/
theorem c4_confidence_banding (m : ℕ) (p e : ℚ) :
    calculate_confidence m p e = specConfidenceBand (specConfidencePoints m p e) := by
  simp only [calculate_confidence, specConfidencePoints, specConfidenceBand,
    pyAbs_eq_abs, Nat.zero_add, gt_iff_lt]

/-- C2 (amended): the sentiment label is determined by the pre-rounding
blended polarity `q`, of which the record's `polarity` field is the
4-decimal rounding: `label = Positive ⇔ q > 0.1`, `Negative ⇔ q < -0.1`,
`Neutral` otherwise — exhaustive and non-overlapping — for every record the
analyzer can produce, including the error-fallback record (where `q = 0`).
The biconditional need not hold against the rounded field itself
(see the counterexample `c2_rounded_field_boundary`). -/
theorem c2_label_polarity_relation (tb : TextBlobEngine) (t : Option Str) :
    ∃ q : ℚ,
      (analyze_enhanced_sentiment tb t).polarity = pyRound4 q ∧
      ((analyze_enhanced_sentiment tb t).sentiment_label = "Positivo" ↔ 0.1 < q) ∧
      ((analyze_enhanced_sentiment tb t).sentiment_label = "Negativo" ↔ q < -0.1) ∧
      ((analyze_enhanced_sentiment tb t).sentiment_label = "Neutro" ↔
        (¬ 0.1 < q ∧ ¬ q < -0.1)) := by
  rcases t with _ | s
  · rw [analyze_none tb]
    exact ⟨0, by decide, by decide, by decide, by decide⟩
  · by_cases hs : s.isEmpty
    · rw [analyze_empty tb s hs]
      exact ⟨0, by decide, by decide, by decide, by decide⟩
    · rcases htb : tb (preprocess_text (some s)).1 with e | ps
      · rw [analyze_some_err tb s e (Bool.eq_false_iff.mpr hs) htb]
        exact ⟨0, by decide, by decide, by decide, by decide⟩
      · rw [analyze_some_ok tb s ps (Bool.eq_false_iff.mpr hs) htb]
        exact finish_label_iff (preprocess_text (some s)) ps

/-- C2 counterexample: with an injected generic-polarity engine returning
`0.1250375` on the text `"."` (no crypto terms, no emoji), the blended
polarity is `0.10003 > 0.1`, so the label is Positive, but the record's
`polarity` field is the rounding `0.1`, which is not `> 0.1` — refuting the
claimed biconditional between the label and the stored `polarity` field. -/
theorem c2_rounded_field_boundary :
    (analyze_enhanced_sentiment tbBoundary (some ['.'])).sentiment_label = "Positivo" ∧
    (analyze_enhanced_sentiment tbBoundary (some ['.'])).polarity = 0.1 ∧
    ¬ ((0.1:ℚ) < (analyze_enhanced_sentiment tbBoundary (some ['.'])).polarity) := by
  refine ⟨by decide, by decide, by decide⟩

/-- C3: for every input text on the successful scoring path (with the
generic-polarity engine injected, giving polarity `p`), the record's
`polarity` field is the 4-decimal rounding of
`0.6·crypto_score + 0.3·p + 0.1·emoji_score` when `match_count > 0`, and of
`0.0·crypto_score + 0.8·p + 0.2·emoji_score` when `match_count = 0`. -/
theorem c3_polarity_blend (tb : TextBlobEngine) (s : Str) (p sub : ℚ)
    (hs : s.isEmpty = false)
    (htb : tb (preprocess_text (some s)).1 = .ok (p, sub)) :
    (analyze_enhanced_sentiment tb (some s)).polarity =
      (if 0 < (analyze_crypto_terms (preprocess_text (some s)).1).match_count then
        pyRound4 (0.6 * (analyze_crypto_terms (preprocess_text (some s)).1).crypto_score +
          0.3 * p + 0.1 * (preprocess_text (some s)).2)
      else
        pyRound4 (0.0 * (analyze_crypto_terms (preprocess_text (some s)).1).crypto_score +
          0.8 * p + 0.2 * (preprocess_text (some s)).2)) := by
  rw [analyze_some_ok tb s (p, sub) hs htb]
  have hpol : (finishAnalysis (preprocess_text (some s)) (p, sub)).polarity =
      pyRound4 ((analyze_crypto_terms (preprocess_text (some s)).1).crypto_score *
        (if 0 < (analyze_crypto_terms (preprocess_text (some s)).1).match_count then (0.6:ℚ) else 0.0) +
        p * (if 0 < (analyze_crypto_terms (preprocess_text (some s)).1).match_count then (0.3:ℚ) else 0.8) +
        (preprocess_text (some s)).2 *
          (if 0 < (analyze_crypto_terms (preprocess_text (some s)).1).match_count then (0.1:ℚ) else 0.2)) := rfl
  rw [hpol]
  generalize (analyze_crypto_terms (preprocess_text (some s)).1).crypto_score = cs
  generalize (analyze_crypto_terms (preprocess_text (some s)).1).match_count = mc
  generalize (preprocess_text (some s)).2 = ee
  by_cases h : 0 < mc
  · rw [if_pos h, if_pos h, if_pos h, if_pos h]
    congr 1
    ring
  · rw [if_neg h, if_neg h, if_neg h, if_neg h]
    congr 1
    ring

/-- C3 witness: the blend theorem instantiated at the zero engine and the
two-character text `"hi"`. -/
theorem c3_polarity_blend_witness :
    (analyze_enhanced_sentiment tbZero (some ['h', 'i'])).polarity =
      (if 0 < (analyze_crypto_terms (preprocess_text (some ['h', 'i'])).1).match_count then
        pyRound4 (0.6 * (analyze_crypto_terms (preprocess_text (some ['h', 'i'])).1).crypto_score +
          0.3 * 0 + 0.1 * (preprocess_text (some ['h', 'i'])).2)
      else
        pyRound4 (0.0 * (analyze_crypto_terms (preprocess_text (some ['h', 'i'])).1).crypto_score +
          0.8 * 0 + 0.2 * (preprocess_text (some ['h', 'i'])).2)) :=
  c3_polarity_blend tbZero ['h', 'i'] 0 0 rfl rfl

/-- C5: for every input (valid, empty, non-string, or failing engine), the
record's `analysis_method` is `'enhanced_crypto'` iff its `crypto_matches`
count is positive; the method is always one of the three markers; `None`
input, empty input and an engine failure give `'error_fallback'`; and the
successful path with zero crypto matches gives `'textblob_standard'`. -/
theorem c5_method_invariant (tb : TextBlobEngine) (t : Option Str) :
    ((analyze_enhanced_sentiment tb t).analysis_method = "enhanced_crypto" ↔
      0 < (analyze_enhanced_sentiment tb t).crypto_matches) ∧
    ((analyze_enhanced_sentiment tb t).analysis_method = "enhanced_crypto" ∨
     (analyze_enhanced_sentiment tb t).analysis_method = "textblob_standard" ∨
     (analyze_enhanced_sentiment tb t).analysis_method = "error_fallback") ∧
    (t = none → (analyze_enhanced_sentiment tb t).analysis_method = "error_fallback") ∧
    (∀ s, t = some s → s.isEmpty = true →
      (analyze_enhanced_sentiment tb t).analysis_method = "error_fallback") ∧
    (∀ s e, t = some s → tb (preprocess_text (some s)).1 = .error e →
      (analyze_enhanced_sentiment tb t).analysis_method = "error_fallback") ∧
    (∀ s p sub, t = some s → s.isEmpty = false →
      tb (preprocess_text (some s)).1 = .ok (p, sub) →
      (analyze_crypto_terms (preprocess_text (some s)).1).match_count = 0 →
      (analyze_enhanced_sentiment tb t).analysis_method = "textblob_standard") := by
  rcases t with _ | s
  · rw [analyze_none tb]
    exact ⟨by decide, Or.inr (Or.inr rfl), fun _ => rfl,
      fun s h => Option.noConfusion h, fun s e h => Option.noConfusion h,
      fun s p sub h => Option.noConfusion h⟩
  · by_cases hs : s.isEmpty
    · rw [analyze_empty tb s hs]
      refine ⟨by decide, Or.inr (Or.inr rfl), fun h => Option.noConfusion h,
        fun s' h _ => rfl, fun s' e h _ => rfl, fun s' p sub heq hs' _ _ => ?_⟩
      obtain rfl := Option.some.inj heq
      rw [hs] at hs'
      exact Bool.noConfusion hs'
    · have hsf : s.isEmpty = false := Bool.eq_false_iff.mpr hs
      rcases htb : tb (preprocess_text (some s)).1 with e | ps
      · rw [analyze_some_err tb s e hsf htb]
        refine ⟨by decide, Or.inr (Or.inr rfl), fun h => Option.noConfusion h,
          fun s' heq h => rfl, fun s' e' _ _ => rfl, fun s' p sub heq _ htb' _ => ?_⟩
        obtain rfl := Option.some.inj heq
        rw [htb] at htb'
        exact Except.noConfusion htb'
      · rw [analyze_some_ok tb s ps hsf htb]
        rw [finish_method (preprocess_text (some s)) ps,
          finish_matches (preprocess_text (some s)) ps]
        refine ⟨?_, ?_, fun h => Option.noConfusion h, fun s' heq h => ?_,
          fun s' e' heq htb' => ?_, fun s' p sub heq _ _ hmc => ?_⟩
        · by_cases h : 0 < (analyze_crypto_terms (preprocess_text (some s)).1).match_count
          · rw [if_pos h]
            exact iff_of_true rfl h
          · rw [if_neg h]
            exact iff_of_false (by decide) h
        · by_cases h : 0 < (analyze_crypto_terms (preprocess_text (some s)).1).match_count
          · rw [if_pos h]; exact Or.inl rfl
          · rw [if_neg h]; exact Or.inr (Or.inl rfl)
        · obtain rfl := Option.some.inj heq
          exact absurd h hs
        · obtain rfl := Option.some.inj heq
          rw [htb] at htb'
          exact Except.noConfusion htb'
        · obtain rfl := Option.some.inj heq
          rw [if_neg (by rw [hmc]; exact lt_irrefl 0)]

/-- C5 witness: with the zero engine on the text `"."` (a valid non-empty
string matching no lexicon term), the method is `'textblob_standard'` and
the biconditional is discharged at a concrete input. -/
theorem c5_method_invariant_witness :
    (analyze_enhanced_sentiment tbZero (some ['.'])).analysis_method = "textblob_standard" :=
  (c5_method_invariant tbZero (some ['.'])).2.2.2.2.2 ['.'] 0 0 rfl rfl rfl (by decide)

/-- C6: the lexicon has pairwise-distinct terms; the iteration order of
`analyze_crypto_terms` is descending term length; and on the cleaned text
`"green candle"` (which contains the distinct lexicon entry `"green"` as a
substring) exactly one match is recorded — `("green candle", 0.6)` — with
no second match for `"green"`, because the erase step removes the span. -/
theorem c6_longest_match_precedence :
    (crypto_terms.map Prod.fst).Nodup ∧
    List.Pairwise (fun a b => b.1.length ≤ a.1.length) sorted_terms ∧
    analyze_crypto_terms "green candle".data =
      { crypto_score := 0.6, matches_found := [("green candle".data, 0.6)],
        match_count := 1 } := by
  refine ⟨by decide, by decide, by decide⟩

/-- C9: for every string input the emoji score returned by
`preprocess_text` equals `0.3` times the total count of the 10 positive
emojis minus `0.3` times the total count of the 10 negative emojis, all
counted on the original (uncleaned) text; and `None` input yields
`("", 0.0)` without failing. -/
theorem c9_emoji_score (s : Str) :
    (preprocess_text (some s)).2 =
      0.3 * ((positive_emojis.map (fun e => ((countOccs e.data s : ℕ) : ℚ))).sum) -
      0.3 * ((negative_emojis.map (fun e => ((countOccs e.data s : ℕ) : ℚ))).sum) ∧
    preprocess_text none = ([], 0) := by
  refine ⟨?_, rfl⟩
  by_cases hs : s.isEmpty
  · obtain rfl : s = [] := by
      cases s with
      | nil => rfl
      | cons c cs => exact Bool.noConfusion hs
    decide
  · have hsf : s.isEmpty = false := Bool.eq_false_iff.mpr hs
    have hsnd : (preprocess_text (some s)).2 =
        negative_emojis.foldl (fun acc emoji => acc - (countOccs emoji.data s : ℚ) * 0.3)
          (positive_emojis.foldl
            (fun acc emoji => acc + (countOccs emoji.data s : ℚ) * 0.3) 0) := by
      simp only [preprocess_text, hsf, Bool.false_eq_true, if_false]
    rw [hsnd]
    simp only [positive_emojis, negative_emojis, List.foldl_cons, List.foldl_nil,
      List.map_cons, List.map_nil, List.sum_cons, List.sum_nil]
    ring


theorem finish_label (pre : Str × ℚ) (ps : ℚ × ℚ) :
    (finishAnalysis pre ps).sentiment_label =
      (if (0.1:ℚ) < (analyze_crypto_terms pre.1).crypto_score *
          (if 0 < (analyze_crypto_terms pre.1).match_count then (0.6:ℚ) else 0.0) +
          ps.1 * (if 0 < (analyze_crypto_terms pre.1).match_count then (0.3:ℚ) else 0.8) +
          pre.2 * (if 0 < (analyze_crypto_terms pre.1).match_count then (0.1:ℚ) else 0.2)
       then "Positivo"
       else if (analyze_crypto_terms pre.1).crypto_score *
          (if 0 < (analyze_crypto_terms pre.1).match_count then (0.6:ℚ) else 0.0) +
          ps.1 * (if 0 < (analyze_crypto_terms pre.1).match_count then (0.3:ℚ) else 0.8) +
          pre.2 * (if 0 < (analyze_crypto_terms pre.1).match_count then (0.1:ℚ) else 0.2) < -0.1
       then "Negativo" else "Neutro") := by
  dsimp only [finishAnalysis]

theorem c7_moon_scenario (tb : TextBlobEngine) (p sub : ℚ)
    (htb : tb (preprocess_text (some moonInput)).1 = .ok (p, sub)) (hp : -1 ≤ p) :
    (analyze_enhanced_sentiment tb (some moonInput)).crypto_matches = 3 ∧
    (analyze_enhanced_sentiment tb (some moonInput)).crypto_score = 2.2 ∧
    (analyze_enhanced_sentiment tb (some moonInput)).crypto_terms_found =
      ["diamond hands".data, "moon".data, "hodl".data] ∧
    (analyze_enhanced_sentiment tb (some moonInput)).sentiment_label = "Positivo" ∧
    (analyze_enhanced_sentiment tb (some moonInput)).confidence =
      (if 0.2 < pyAbs p then "Alta" else "Média") := by
  rw [analyze_some_ok tb moonInput (p, sub) (by decide) htb]
  have hmc : (analyze_crypto_terms (preprocess_text (some moonInput)).1).match_count = 3 := by
    decide
  have hcs : (analyze_crypto_terms (preprocess_text (some moonInput)).1).crypto_score = 2.2 := by
    decide
  have hmf : (analyze_crypto_terms (preprocess_text (some moonInput)).1).matches_found =
      [("diamond hands".data, 0.7), ("moon".data, 0.9), ("hodl".data, 0.6)] := by decide
  have hee : (preprocess_text (some moonInput)).2 = 0 := by decide
  refine ⟨?_, ?_, ?_, ?_, ?_⟩
  · rw [finish_matches, hmc]
  · rw [finish_score, hcs]
    decide
  · rw [finish_terms, hmf]
    decide
  · rw [finish_label, hcs, hmc, hee]
    dsimp only
    simp only [show ((0:ℕ) < 3) = True by simp, if_true]
    have hcond : (0.1:ℚ) < 2.2 * 0.6 + p * 0.3 + 0 * 0.1 := by nlinarith [hp]
    rw [if_pos hcond]
  · rw [finish_confidence, hmc, hee]
    dsimp only
    have hz : pyAbs (0:ℚ) = 0 := rfl
    simp only [calculate_confidence, hz]
    rw [if_pos (by norm_num : 3 ≤ 3), if_neg (by norm_num : ¬ (0.3:ℚ) < 0)]
    by_cases h1 : (0.5:ℚ) < pyAbs p
    · have h2 : (0.2:ℚ) < pyAbs p := by linarith
      rw [if_pos h1, if_pos h2, if_pos (by norm_num : 4 ≤ 0 + 3 + 2 + 0)]
    · rw [if_neg h1]
      by_cases h2 : (0.2:ℚ) < pyAbs p
      · rw [if_pos h2, if_pos h2, if_pos (by norm_num : 4 ≤ 0 + 3 + 1 + 0)]
      · rw [if_neg h2, if_neg h2, if_neg (by norm_num : ¬ 4 ≤ 0 + 3 + 0 + 0),
          if_pos (by norm_num : 2 ≤ 0 + 3 + 0 + 0)]

/-- C7 counterexample: the claim asserts confidence = High for the input
`"Bitcoin to the moon! Diamond hands HODL"`, but the three crypto matches
contribute only 3 confidence points, below the High band (4); with a
generic-polarity engine returning 0 for this text (the lexicon words carry
no generic sentiment) the confidence is `'Média'` (Medium), not `'Alta'`
(High), while every other asserted part of the claim holds. -/
theorem c7_zero_polarity_confidence :
    (analyze_enhanced_sentiment tbZero (some moonInput)).confidence = "Média" ∧
    "Média" ≠ "Alta" ∧
    (analyze_enhanced_sentiment tbZero (some moonInput)).crypto_matches = 3 ∧
    (analyze_enhanced_sentiment tbZero (some moonInput)).crypto_score = 2.2 ∧
    (analyze_enhanced_sentiment tbZero (some moonInput)).sentiment_label = "Positivo" := by
  refine ⟨by decide, by decide, by decide, by decide, by decide⟩

/-- C7 witness: the amended scenario theorem instantiated at an engine whose
polarity `1/2` exceeds the `0.2` confidence band, giving `'Alta'`. -/
theorem c7_moon_scenario_witness :
    (analyze_enhanced_sentiment tbHalf (some moonInput)).crypto_matches = 3 ∧
    (analyze_enhanced_sentiment tbHalf (some moonInput)).crypto_score = 2.2 ∧
    (analyze_enhanced_sentiment tbHalf (some moonInput)).crypto_terms_found =
      ["diamond hands".data, "moon".data, "hodl".data] ∧
    (analyze_enhanced_sentiment tbHalf (some moonInput)).sentiment_label = "Positivo" ∧
    (analyze_enhanced_sentiment tbHalf (some moonInput)).confidence =
      (if 0.2 < pyAbs (1/2 : ℚ) then "Alta" else "Média") :=
  c7_moon_scenario tbHalf (1/2) 0 rfl (by norm_num)

/-- C1 (amended): for every list of string input texts, the batch analyzer
returns (without raising) exactly one record per input, each item scored by
`analyze_enhanced_sentiment`; any failure of the injected engine on an item
is caught there and that item alone becomes the ErrorFallback record
(method `'error_fallback'`, all numeric fields `0`, label Neutral,
confidence Low), as do empty strings. A non-string element such as `None`,
however, makes the batch itself raise (see `c1_none_aborts_batch`). -/
theorem c1_batch_error_handling (tb : TextBlobEngine) (texts : List Str) :
    ∃ rs, analyze_batch_sentiment tb (texts.map Option.some) = .ok rs ∧
      rs.length = texts.length ∧
      (∀ i (h : i < texts.length) (h2 : i < rs.length),
        (rs.get ⟨i, h2⟩).result = analyze_enhanced_sentiment tb (some (texts.get ⟨i, h⟩))) ∧
      (∀ (s : Str) (e : Unit), tb (preprocess_text (some s)).1 = .error e →
        analyze_enhanced_sentiment tb (some s) = _get_neutral_result) ∧
      analyze_enhanced_sentiment tb (some []) = _get_neutral_result ∧
      analyze_enhanced_sentiment tb none = _get_neutral_result ∧
      _get_neutral_result =
        { polarity := 0, subjectivity := 0, sentiment_label := "Neutro",
          confidence := "Baixa", textblob_polarity := 0, crypto_score := 0,
          emoji_score := 0, crypto_matches := 0, crypto_terms_found := [],
          analysis_method := "error_fallback" } := by
  refine ⟨_, batch_strings_eq tb texts, ?_, ?_, ?_, rfl, rfl, rfl⟩
  · exact List.length_mapIdx
  · intro i h h2
    simp only [List.get_eq_getElem, List.getElem_mapIdx]
  · exact fun s e htb => analyze_tb_error tb s e htb

/-- C1 counterexample: a batch containing the non-string `None` raises
(`len(None)` in the `original_text` slicing line runs outside any
`try`/`except`), refuting "returns one record per input and never raises
… including non-string elements such as None". -/
theorem c1_none_aborts_batch :
    analyze_batch_sentiment tbZero [none] = .error () := rfl

/-- C1 witness: with an always-failing engine, a one-item batch still
succeeds and the item is the fallback record. -/
theorem c1_batch_error_handling_witness :
    analyze_enhanced_sentiment tbErr (some ['h']) = _get_neutral_result := by
  obtain ⟨rs, h1, h2, h3, hcatch, h5, h6, h7⟩ := c1_batch_error_handling tbErr [['h']]
  exact hcatch ['h'] () rfl

/-- C8: the batch analyzer processes items independently and in input
order: the result has the same length as the input, `text_index` at
position `i` is `i`, and the record at position `i` is exactly the one
obtained by scoring the input at position `i`. -/
theorem c8_batch_order (tb : TextBlobEngine) (texts : List Str) :
    ∃ rs, analyze_batch_sentiment tb (texts.map Option.some) = .ok rs ∧
      rs.length = texts.length ∧
      (∀ i (h : i < texts.length) (h2 : i < rs.length),
        (rs.get ⟨i, h2⟩).text_index = i ∧
        (rs.get ⟨i, h2⟩).result = analyze_enhanced_sentiment tb (some (texts.get ⟨i, h⟩))) := by
  refine ⟨_, batch_strings_eq tb texts, List.length_mapIdx, ?_⟩
  intro i h h2
  constructor
  · simp only [List.get_eq_getElem, List.getElem_mapIdx]
  · simp only [List.get_eq_getElem, List.getElem_mapIdx]

/-- C8 witness: order preservation discharged on a concrete two-item
batch, reading off `text_index = 1` at position 1. -/
theorem c8_batch_order_witness :
    ∃ rs, analyze_batch_sentiment tbZero ([['a'], ['b']].map Option.some) = .ok rs ∧
      rs.length = 2 ∧ ∀ h2 : 1 < rs.length, (rs.get ⟨1, h2⟩).text_index = 1 := by
  obtain ⟨rs, h1, h2, h3⟩ := c8_batch_order tbZero [['a'], ['b']]
  exact ⟨rs, h1, h2, fun hh => (h3 1 (by decide) hh).1⟩

/-- A 101-character string, used to exercise the truncation branch. -/
def longText : Str :=
  "aaaaaaaaaaaaaaaaaaaaaaaaaaaaaaaaaaaaaaaaaaaaaaaaaaaaaaaaaaaaaaaaaaaaaaaaaaaaaaaaaaaaaaaaaaaaaaaaaaaab".data

/-- C10: for every string item of a batch, the record's `original_text` is
the input itself when its length is at most 100 characters, and exactly the
first 100 characters followed by `"..."` when it is longer — so the full
text is not preserved for long inputs. -/
theorem c10_original_text_truncation (tb : TextBlobEngine) (texts : List Str) :
    ∃ rs, analyze_batch_sentiment tb (texts.map Option.some) = .ok rs ∧
      rs.length = texts.length ∧
      (∀ i (h : i < texts.length) (h2 : i < rs.length),
        (rs.get ⟨i, h2⟩).original_text =
          (if (texts.get ⟨i, h⟩).length ≤ 100 then texts.get ⟨i, h⟩
           else (texts.get ⟨i, h⟩).take 100 ++ "...".data)) := by
  refine ⟨_, batch_strings_eq tb texts, List.length_mapIdx, ?_⟩
  intro i h h2
  simp only [List.get_eq_getElem, List.getElem_mapIdx]
  by_cases hlen : texts[i].length ≤ 100
  · rw [if_neg (by omega), if_pos hlen]
  · rw [if_pos (by omega), if_neg hlen]

/-- C10 witness: truncation discharged on a concrete batch containing a
101-character string: the stored text is the first 100 characters plus
`"..."`. -/
theorem c10_original_text_truncation_witness :
    ∃ rs, analyze_batch_sentiment tbZero ([longText].map Option.some) = .ok rs ∧
      ∀ h2 : 0 < rs.length,
        (rs.get ⟨0, h2⟩).original_text = longText.take 100 ++ "...".data := by
  obtain ⟨rs, h1, h2, h3⟩ := c10_original_text_truncation tbZero [longText]
  refine ⟨rs, h1, fun hh => ?_⟩
  rw [h3 0 (by decide) hh]
  rfl

end BtcSentinel

